import Mathlib

/-!
Shallow embedding of the asset-resolution and database-bootstrap pipeline of
`scripts/extract_schemas_copy.py`: downloader caching and atomic-save
semantics, the Google Drive confirmation handshake, archive extraction with a
completion marker, member search in the extracted tree, the static bundle
configuration and its dictionary lookups, the database administration
commands, and the driver loop of `main`.

File contents at the destination path, at the temporary path, and archive
contents are modelled as explicit values; network responses are supplied by an
environment function, so every network-dependent operation is a pure function
of the environment and its arguments.
-/

namespace ExtractSchemas

/-- Decidable equality for `Except`, needed to decide concrete outcomes. -/
instance {ε α : Type} [DecidableEq ε] [DecidableEq α] : DecidableEq (Except ε α) := fun a b =>
  match a, b with
  | .ok x, .ok y => decidable_of_iff (x = y) (by simp)
  | .error x, .error y => decidable_of_iff (x = y) (by simp)
  | .ok _, .error _ => .isFalse (by simp)
  | .error _, .ok _ => .isFalse (by simp)

/-- Occurrence of `pat` as a contiguous run inside a character list. -/
def subOccurs (pat : List Char) : List Char → Bool
  | [] => pat.isEmpty
  | c :: rest => pat.isPrefixOf (c :: rest) || subOccurs pat rest

/-- Python's substring test `pat in s` (used via `"text/html" in ctype`). -/
def strContains (s pat : String) : Bool :=
  subOccurs pat.toList s.toList

/-- ASCII lower-casing of one character (`str.lower` on the ASCII strings
this pipeline compares). -/
def asciiLower (c : Char) : Char :=
  if 'A' ≤ c && c ≤ 'Z' then Char.ofNat (c.toNat + 32) else c

/-- `str.lower()` on ASCII content. -/
def lowerStr (s : String) : String :=
  String.mk (s.toList.map asciiLower)

/-- The Python exceptions the pipeline can raise, by kind.
`httpError` is `requests.HTTPError` from `raise_for_status` (status ≥ 400);
`runtimeError` carries the message of a `RuntimeError`;
`tarReadError` is `tarfile.ReadError` on a corrupt/truncated archive;
`fileNotFoundError` is raised by `find_member_path`;
`keyError` is a bare dictionary-lookup `KeyError`;
`calledProcessError` is `subprocess.CalledProcessError` from `check=True`;
`networkInterrupted` models a `requests` streaming exception raised while
iterating the response body (connection dropped mid-transfer). -/
inductive PyErr
  | httpError (status : Nat)
  | valueError (msg : String)
  | runtimeError (msg : String)
  | tarReadError
  | fileNotFoundError (member : String)
  | keyError (key : String)
  | calledProcessError
  | networkInterrupted
deriving DecidableEq, Repr

/-- Outcome of a successful fetch: a cache hit returning the existing
destination, or a fresh save of the streamed body. -/
inductive FetchResult
  | cached
  | saved (body : String)
deriving DecidableEq, Repr

/-- Temporary-file name used by `_save_stream`:
`out_path.with_suffix(out_path.suffix + ".part.{pid}.{timestamp}")`, which
appends `.part.<pid>.<timestamp>` to the destination name. -/
def tmpName (out_path : String) (pid timestamp : Nat) : String :=
  out_path ++ ".part." ++ toString pid ++ "." ++ toString timestamp

/-- `_save_stream(resp, out_path)`: write the chunks of the response body
(skipping empty chunks, `if chunk:`) to a per-process temporary file, then
`tmp.replace(out_path)`; the `finally` block removes any leftover temporary
file with bounded retries.  State is (destination contents, temporary-file
contents), `none` meaning the file does not exist.  `interruptAfter = some n`
means the stream raised after `n` chunks were yielded: the replace never
happens and the partial temporary file is unlinked, leaving the destination
exactly as it was. -/
def _save_stream (dest0 : Option String) (chunks : List String)
    (interruptAfter : Option Nat) : Option String × Option String :=
  match interruptAfter with
  | none => (some (String.join (chunks.filter (fun c => c != ""))), none)
  | some _ => (dest0, none)

/-- The single plain-HTTP response seen by the generic branch of
`download_file`: a status code and the body as a stream of chunks. -/
structure PlainResponse where
  status : Nat
  chunks : List String
deriving DecidableEq, Repr

/-- Observable outcome of a fetch: number of network requests issued,
destination contents afterwards, and the result or the exception raised. -/
structure FetchTrace where
  numRequests : Nat
  dest : Option String
  result : Except PyErr FetchResult
deriving DecidableEq, Repr

/-- The generic (non Google Drive) branch of `download_file(url, out_path,
force)`: if the destination exists and `force` is false, return it with no
network call; otherwise GET the url, `raise_for_status`, and write the chunks
DIRECTLY to `out_path` opened in `"wb"` mode — there is no temporary file in
this branch, so an interruption after `n` chunks leaves the bytes written so
far at the destination. -/
def download_file_plain (resp : PlainResponse) (dest0 : Option String)
    (force : Bool) (interruptAfter : Option Nat) : FetchTrace :=
  if dest0.isSome && !force then
    { numRequests := 0, dest := dest0, result := .ok .cached }
  else if 400 ≤ resp.status then
    { numRequests := 1, dest := dest0, result := .error (.httpError resp.status) }
  else
    match interruptAfter with
    | none =>
      let body := String.join (resp.chunks.filter (fun c => c != ""))
      { numRequests := 1, dest := some body, result := .ok (.saved body) }
    | some n =>
      { numRequests := 1,
        dest := some (String.join ((resp.chunks.filter (fun c => c != "")).take n)),
        result := .error .networkInterrupted }

/-- `_looks_like_html(resp)`: `"text/html" in (Content-Type or "").lower()`. -/
def _looks_like_html (ctype : String) : Bool :=
  strContains (lowerStr ctype) "text/html"

/-- Character class `[0-9A-Za-z_-]` of the confirm-token pattern. -/
def isTokenChar (c : Char) : Bool :=
  c.isAlphanum || c = '_' || c = '-'

/-- `re.search(r"[?&]confirm=([0-9A-Za-z_-]+)", html)`: leftmost position at
which a `?` or `&` is followed by the literal `confirm=` and at least one
token character; the captured group is the maximal token-character run. -/
def scanConfirmParam : List Char → Option String
  | [] => none
  | c :: rest =>
    if (c = '?' || c = '&') && "confirm=".toList.isPrefixOf rest then
      let tok := (rest.drop 8).takeWhile isTokenChar
      if tok = [] then scanConfirmParam rest else some (String.mk tok)
    else scanConfirmParam rest

/-- Continuation of the hidden-form-field pattern right after the literal
`name="confirm"`: one or more whitespace characters, then `value="`, then a
non-empty run of non-quote characters closed by `"`. -/
def hiddenConfirmAt (rest : List Char) : Option String :=
  let ws := rest.takeWhile (fun c => c.isWhitespace)
  if ws = [] then none
  else
    let rest2 := rest.drop ws.length
    if "value=\"".toList.isPrefixOf rest2 then
      let tok := (rest2.drop 7).takeWhile (fun c => c ≠ '"')
      if tok = [] then none
      else if (rest2.drop 7).drop tok.length = [] then none
      else some (String.mk tok)
    else none

/-- `re.search(r'name="confirm"\s+value="([^"]+)"', html)`: leftmost
occurrence of the literal `name="confirm"` whose continuation matches. -/
def scanHiddenConfirm : List Char → Option String
  | [] => none
  | c :: rest =>
    if c = 'n' && "ame=\"confirm\"".toList.isPrefixOf rest then
      match hiddenConfirmAt (rest.drop 13) with
      | some t => some t
      | none => scanHiddenConfirm rest
    else scanHiddenConfirm rest

/-- `_extract_confirm_token_from_html(html)`: method (a), a `confirm=<token>`
query parameter in the page's links, then method (b), a hidden form field
named `confirm`. -/
def _extract_confirm_token_from_html (html : String) : Option String :=
  match scanConfirmParam html.toList with
  | some t => some t
  | none => scanHiddenConfirm html.toList

/-- Method (c): the first session cookie whose name starts with
`download_warning` and whose value is non-empty (`if k.startswith(...) and v`). -/
def cookieWarningToken (cookies : List (String × String)) : Option String :=
  match cookies.find? (fun kv =>
      "download_warning".toList.isPrefixOf kv.1.toList && kv.2 != "") with
  | some kv => some kv.2
  | none => none

/-- The full ordered token-fallback of `download_google_drive` lines 197–204:
HTML methods (a) then (b), and only if both yield nothing, cookie method (c). -/
def gdriveToken (html : String) (cookies : List (String × String)) : Option String :=
  match _extract_confirm_token_from_html html with
  | some t => some t
  | none => cookieWarningToken cookies

/-- Message of the `RuntimeError` raised when no confirmation token is found. -/
def gdriveTokenMissingMsg : String :=
  "Google Drive confirmation token not found.\nMake sure the file is shared as \x27Anyone with the link\x27.\nIf the link downloads in browser but not here, the HTML pattern might differ."

/-- Message of the `RuntimeError` raised when the second response is again HTML. -/
def gdrivePermissionDeniedMsg : String :=
  "Google Drive returned HTML again (likely permissions / needs sign-in).\nEnsure sharing is set to \x27Anyone with the link\x27."

/-- An outbound GET of the Google Drive handshake against the `/uc` endpoint:
the `id` parameter, the optional `confirm` parameter, and the session cookies
carried by the request (empty on the first request of a fresh session). -/
structure GdRequest where
  fileId : String
  confirm : Option String
  cookies : List (String × String)
deriving DecidableEq, Repr

/-- A response of the Google Drive host: status, content type, the body as
text (`r.text`, parsed for tokens), the body as a chunk stream
(`r.iter_content`), and the cookies it sets into the session. -/
structure GdResponse where
  status : Nat
  contentType : String
  body : String
  chunks : List String
  cookies : List (String × String)
deriving DecidableEq, Repr

/-- Observable outcome of `download_google_drive`: the outbound requests in
order, the destination contents afterwards, and the result or exception. -/
structure GdOutcome where
  requests : List GdRequest
  dest : Option String
  result : Except PyErr FetchResult
deriving DecidableEq, Repr

/-- `download_google_drive(url, out_path, force)` after the file id has been
extracted from the url.  The cache check precedes all network activity; the
first GET carries no `confirm` parameter; a non-HTML response is saved via
`_save_stream`; an HTML response is mined for a token by `gdriveToken`, whose
absence raises the token-missing `RuntimeError` with no further request; the
second GET repeats the parameters plus `confirm=<token>` on the same session
(cookies carried over); a second HTML response raises the permission
`RuntimeError` with nothing saved. -/
def download_google_drive (env : GdRequest → GdResponse) (fid : String)
    (dest0 : Option String) (force : Bool) : GdOutcome :=
  if dest0.isSome && !force then
    { requests := [], dest := dest0, result := .ok .cached }
  else
    let req1 : GdRequest := { fileId := fid, confirm := none, cookies := [] }
    let r1 := env req1
    if 400 ≤ r1.status then
      { requests := [req1], dest := dest0, result := .error (.httpError r1.status) }
    else if !(_looks_like_html r1.contentType) then
      { requests := [req1], dest := (_save_stream dest0 r1.chunks none).1,
        result := .ok (.saved (String.join (r1.chunks.filter (fun c => c != "")))) }
    else
      match gdriveToken r1.body r1.cookies with
      | none =>
        { requests := [req1], dest := dest0,
          result := .error (.runtimeError gdriveTokenMissingMsg) }
      | some t =>
        let req2 : GdRequest := { fileId := fid, confirm := some t, cookies := r1.cookies }
        let r2 := env req2
        if 400 ≤ r2.status then
          { requests := [req1, req2], dest := dest0,
            result := .error (.httpError r2.status) }
        else if _looks_like_html r2.contentType then
          { requests := [req1, req2], dest := dest0,
            result := .error (.runtimeError gdrivePermissionDeniedMsg) }
        else
          { requests := [req1, req2], dest := (_save_stream dest0 r2.chunks none).1,
            result := .ok (.saved (String.join (r2.chunks.filter (fun c => c != "")))) }

/-- URL dispatch of `download_file`: Google Drive handling is selected when
the url contains `drive.google.com` or `drive.usercontent.google.com`. -/
def is_gdrive_url (url : String) : Bool :=
  strContains url "drive.google.com" || strContains url "drive.usercontent.google.com"

/-- `download_file(url, out_path, force)`: dispatch on the url shape, then
either the Google Drive handshake or the direct-write generic branch. -/
def download_file (env : GdRequest → GdResponse) (resp : PlainResponse)
    (url fid : String) (dest0 : Option String) (force : Bool)
    (interruptAfter : Option Nat) : FetchTrace :=
  if is_gdrive_url url then
    let o := download_google_drive env fid dest0 force
    { numRequests := o.requests.length, dest := o.dest, result := o.result }
  else
    download_file_plain resp dest0 force interruptAfter

/-- A tgz archive as seen by `extract_tgz`: either a good archive whose
extraction produces the given member files, or a corrupt/truncated one whose
extraction raises `tarfile.ReadError` after having brought the given entries
into the directory (possibly none, when opening itself fails). -/
inductive TgzArchive
  | good (files : List String)
  | corrupt (extracted : List String)
deriving DecidableEq, Repr

/-- State of an extraction directory: whether the completion marker
`.extracted.ok` exists, and the other entries present. -/
structure ExtractState where
  markerExists : Bool
  dirContents : List String
deriving DecidableEq, Repr

/-- `extract_tgz(tgz_path, out_dir, force)`: if the marker exists and not
forced, return with the directory untouched.  Otherwise every existing entry
of the directory is removed, the archive is extracted, and only after a fully
successful extraction is the marker written; a corrupt archive raises
`tarfile.ReadError` with the marker absent, leaving whatever was partially
extracted (which the next run wipes again). -/
def extract_tgz (arch : TgzArchive) (st : ExtractState) (force : Bool) :
    ExtractState × Except PyErr Unit :=
  if st.markerExists && !force then (st, .ok ())
  else
    match arch with
    | .good files => ({ markerExists := true, dirContents := files }, .ok ())
    | .corrupt ex => ({ markerExists := false, dirContents := ex }, .error .tarReadError)

/-- Final component of a slash-separated relative path (the filename that
`rglob(member_name)` matches against). -/
def baseName (p : String) : String :=
  String.mk ((p.toList.reverse.takeWhile (fun c => c ≠ '/')).reverse)

/-- `find_member_path(extracted_root, member_name)`: the extracted tree is
the list of relative file paths in traversal order.  The direct child
`root/member_name` wins when present; otherwise `rglob` collects every file
whose name matches exactly, raising `FileNotFoundError` on zero matches and
returning `matches[0]` (with a printed warning) on several. -/
def find_member_path (tree : List String) (member_name : String) :
    Except PyErr String :=
  if member_name ∈ tree then .ok member_name
  else
    match tree.filter (fun p => baseName p == member_name) with
    | [] => .error (.fileNotFoundError member_name)
    | m :: _ => .ok m

/-- A configured SQL source: the `type` tag of the entries of
`DATASET_SQL_SOURCES` (`direct_sql`, `zip`, or `bundle`). -/
inductive SourceDesc
  | direct_sql (url out_name : String)
  | zipMember (url zip_name member out_name : String)
  | bundle (bundleName key out_name : String)
deriving DecidableEq, Repr

/-- `sql_members` of the `sqlizer` bundle. -/
def sqlizer_sql_members : List (String × String) :=
  [("academic", "MAS.database.sql"),
   ("imdb", "IMDB.database.sql"),
   ("yelp", "YELP.database.sql")]

/-- `questions_members` of the `sqlizer` bundle. -/
def sqlizer_questions_members : List (String × String) :=
  [("academic", "MAS.questions.txt"),
   ("imdb", "IMDB.questions.txt"),
   ("yelp", "YELP.questions.txt")]

/-- A bundle descriptor of `SQL_BUNDLES`. -/
structure BundleDesc where
  kind : String
  url : String
  archive_name : String
  sql_members : List (String × String)
  questions_members : List (String × String)
deriving DecidableEq, Repr

/-- The `sqlizer` Google Drive tgz bundle. -/
def sqlizerBundle : BundleDesc :=
  { kind := "tgz",
    url := "https://drive.google.com/uc?export=download&id=11qRUfkEVj7Lapa9ypPfwrDGUFsJRsVx9",
    archive_name := "sqlizer.tgz",
    sql_members := sqlizer_sql_members,
    questions_members := sqlizer_questions_members }

/-- `SQL_BUNDLES`: the configured bundles, keyed by name. -/
def SQL_BUNDLES : List (String × BundleDesc) :=
  [("sqlizer", sqlizerBundle)]

/-- `DATASET_SQL_SOURCES`: the configured per-dataset SQL sources. -/
def DATASET_SQL_SOURCES : List (String × SourceDesc) :=
  [("advising", .direct_sql
      "https://raw.githubusercontent.com/jkkummerfeld/text2sql-data/refs/heads/master/data/advising-db.sql"
      "advising.sql"),
   ("atis", .direct_sql
      "https://raw.githubusercontent.com/jkkummerfeld/text2sql-data/refs/heads/master/data/atis-db.sql"
      "atis.sql"),
   ("academic", .bundle "sqlizer" "academic" "academic.sql"),
   ("imdb", .bundle "sqlizer" "imdb" "imdb.sql"),
   ("yelp", .bundle "sqlizer" "yelp" "yelp.sql")]

/-- Python dictionary lookup `m.get(k)` on a string-keyed map. -/
def dictFind (m : List (String × String)) (k : String) : Option String :=
  (m.find? (fun kv => kv.1 == k)).map (fun kv => kv.2)

/-- Python subscript `m[k]`: the value, or a bare `KeyError` when absent. -/
def lookupKey (m : List (String × String)) (k : String) : Except PyErr String :=
  match dictFind m k with
  | some v => .ok v
  | none => .error (.keyError k)

/-- The control path of the `bundle` branch of `resolve_sql_asset` up to and
including `bundle["sql_members"][key]`: the guarded `SQL_BUNDLES` membership
check (an explicit `KeyError` with a message), the bundle-kind check (a
`ValueError`), and then — with the download and extraction steps abstracted
as successful, since they do not affect which error the lookup raises — the
UNGUARDED subscript into `sql_members`. -/
def bundle_sql_member_lookup (bundleName key : String) : Except PyErr String :=
  match (SQL_BUNDLES.find? (fun kv => kv.1 == bundleName)).map (fun kv => kv.2) with
  | none => .error (.keyError bundleName)
  | some bd =>
    if bd.kind != "tgz" then .error (.valueError ("Unsupported bundle type: " ++ bd.kind))
    else lookupKey bd.sql_members key

/-- Config-level invariant: every `bundle`-type source of
`DATASET_SQL_SOURCES` names a bundle present in `SQL_BUNDLES` whose
`sql_members` contains the source's key. -/
def allBundleKeysPresent : Bool :=
  DATASET_SQL_SOURCES.all (fun e =>
    match e.2 with
    | .bundle b k _ =>
      ((SQL_BUNDLES.find? (fun kv => kv.1 == b)).map (fun kv => kv.2)).elim
        false (fun bd => (dictFind bd.sql_members k).isSome)
    | _ => true)

/-- `CONTAINERS`: engine name to docker container name. -/
def CONTAINERS : List (String × String) :=
  [("mysql", "text2sql-mysql"), ("mariadb", "text2sql-mariadb")]

/-- The argument list of the subprocess run by `docker_mysql_exec(db_type,
creds, sql)`; `none` models the `KeyError` on an unknown engine name. -/
def docker_mysql_exec_cmd (db_type rootPassword sql : String) :
    Option (List String) :=
  ((CONTAINERS.find? (fun kv => kv.1 == db_type)).map (fun kv => kv.2)).map
    (fun container =>
      ["docker", "exec", "-i", container,
       (if db_type == "mysql" then "mysql" else "mariadb"),
       "-uroot", "-p" ++ rootPassword, "-e", sql])

/-- The drop statement issued by `ensure_db` when `reset` is set. -/
def dropStmt (db_name : String) : String :=
  "DROP DATABASE IF EXISTS `" ++ db_name ++ "`;"

/-- The create statement issued by `ensure_db`. -/
def createStmt (db_name : String) : String :=
  "CREATE DATABASE IF NOT EXISTS `" ++ db_name ++
    "` CHARACTER SET utf8mb4 COLLATE utf8mb4_unicode_ci;"

/-- The SQL statements `ensure_db` feeds to `docker_mysql_exec`, in order:
one element per `docker_mysql_exec` call. -/
def ensure_db_stmts (db_name : String) (reset : Bool) : List String :=
  (if reset then [dropStmt db_name] else []) ++ [createStmt db_name]

/-- The administrative subprocess invocations `ensure_db` performs: each
statement is passed to its own `docker_mysql_exec`, hence its own `docker
exec` command. -/
def ensure_db_cmds (db_type rootPassword db_name : String) (reset : Bool) :
    List (Option (List String)) :=
  (ensure_db_stmts db_name reset).map (docker_mysql_exec_cmd db_type rootPassword)

/-- Per-(engine, dataset) environment for the driver loop of `main`: the
outcome of `resolve_sql_asset` (an exception, `None`, or a path), and whether
`ensure_db`, the import, and the schema dump each exit successfully. -/
structure PairEnv where
  resolveOutcome : Except PyErr (Option String)
  ensureOk : Bool
  importOk : Bool
  dumpOk : Bool
deriving DecidableEq, Repr

/-- How a run of `main` ends: a return code, or an exception that escaped
`main` (nothing in the loop catches it). -/
inductive RunResult
  | ok (code : Nat)
  | uncaught (e : PyErr)
deriving DecidableEq, Repr

/-- The driver loop of `main` over the flattened engine × dataset pairs,
returning how many pairs were attempted and how the run ended.  Per pair:
`resolve_sql_asset` is called OUTSIDE any try/except, so an exception it
raises escapes `main`; a `None` result `continue`s to the next pair;
`ensure_db` and the schema dump are likewise unguarded and their
`CalledProcessError` escapes; only `docker_mysql_import_file` sits in a
`try/except CalledProcessError`, whose handler `return 1`s — ending the whole
run. -/
def processPairs (noSchemaDump : Bool) : List PairEnv → Nat × RunResult
  | [] => (0, .ok 0)
  | p :: rest =>
    match p.resolveOutcome with
    | .error e => (1, .uncaught e)
    | .ok none =>
      let r := processPairs noSchemaDump rest
      (r.1 + 1, r.2)
    | .ok (some _) =>
      if !p.ensureOk then (1, .uncaught .calledProcessError)
      else if !p.importOk then (1, .ok 1)
      else if !noSchemaDump && !p.dumpOk then (1, .uncaught .calledProcessError)
      else
        let r := processPairs noSchemaDump rest
        (r.1 + 1, r.2)

/-- A host that always answers with a token-free HTML page and an unrelated
session cookie (exercises the token-missing path of the handshake). -/
def envNoToken : GdRequest → GdResponse := fun _ =>
  { status := 200, contentType := "text/html",
    body := "<html><head><title>Warning</title></head><body>cannot scan this file for viruses</body></html>",
    chunks := [], cookies := [("NID", "x")] }

/-- First response of a gating host: an HTML page whose link carries
`confirm=ABC123`, setting a `download_warning` cookie on the session. -/
def gatedFirstResponse : GdResponse :=
  { status := 200, contentType := "text/html",
    body := "<a href=\"/uc?export=download&confirm=ABC123&id=F\">download anyway</a>",
    chunks := [], cookies := [("download_warning_29", "zz")] }

/-- Second response of a host that keeps answering HTML (sign-in required). -/
def gatedSecondResponse : GdResponse :=
  { status := 200, contentType := "text/html; charset=utf-8",
    body := "<html>sign in</html>", chunks := [], cookies := [] }

/-- The gating host: HTML confirmation page on the tokenless request, HTML
again on the confirmed request. -/
def gatedHost : GdRequest → GdResponse := fun r =>
  match r.confirm with
  | none => gatedFirstResponse
  | some _ => gatedSecondResponse

/-- C1, counterexample: when resolving the first dataset raises an HTTP-status
failure, the driver does not catch it and does not proceed to the second
dataset/engine pair — the exception escapes `main` after one attempted pair,
aborting the whole run. -/
theorem resolution_failure_escapes_driver_cex :
    processPairs false
      [{ resolveOutcome := .error (.httpError 404), ensureOk := true,
         importOk := true, dumpOk := true },
       { resolveOutcome := .ok (some "atis.sql"), ensureOk := true,
         importOk := true, dumpOk := true }]
      = (1, .uncaught (.httpError 404)) ∧
    RunResult.uncaught (.httpError 404) ≠ RunResult.ok 0 := by
  exact ⟨rfl, by decide⟩

/-- C1, amended: a resolution failure raised while resolving a dataset's SQL
asset is NOT caught by the driver — it propagates out of the loop of `main`
and aborts the whole run after that pair; the driver proceeds to the next
dataset/engine pair only when resolution returns `None` (no configured
source). -/
theorem resolution_failure_escapes_driver (e : PyErr) (b : Bool)
    (p q : PairEnv) (rest : List PairEnv)
    (hp : p.resolveOutcome = .error e)
    (hq : q.resolveOutcome = .ok none) :
    processPairs b (p :: rest) = (1, .uncaught e) ∧
    processPairs b (q :: rest)
      = ((processPairs b rest).1 + 1, (processPairs b rest).2) := by
  constructor
  · simp [processPairs, hp]
  · simp [processPairs, hq]

/-- C1, witness for the amended theorem at a concrete pair list. -/
theorem resolution_failure_escapes_driver_witness :
    processPairs false
      [{ resolveOutcome := .error .tarReadError, ensureOk := true,
         importOk := true, dumpOk := true }]
      = (1, .uncaught .tarReadError) ∧
    processPairs false
      [{ resolveOutcome := .ok none, ensureOk := true,
         importOk := true, dumpOk := true }]
      = (1, .ok 0) := by
  have h := resolution_failure_escapes_driver PyErr.tarReadError false
    { resolveOutcome := .error .tarReadError, ensureOk := true,
      importOk := true, dumpOk := true }
    { resolveOutcome := .ok none, ensureOk := true,
      importOk := true, dumpOk := true }
    [] rfl rfl
  exact ⟨h.1, by rw [h.2]; rfl⟩

/-- C2, counterexample: a plain (non Google Drive) `download_file` fetch of a
four-byte body arriving in two chunks, interrupted after the first chunk,
leaves the truncated file "ab" at a destination that did not previously
exist — the generic branch writes directly to the destination with no
temporary file and no atomic rename. -/
theorem transfer_truncation_cex :
    (download_file
        (fun _ => { status := 200, contentType := "", body := "", chunks := [], cookies := [] })
        { status := 200, chunks := ["ab", "cd"] }
        "https://example.com/x.sql" "" none false (some 1)).dest = some "ab" ∧
    (some "ab" : Option String) ≠ none ∧ ("ab" : String) ≠ "abcd" := by
  exact ⟨by decide, by decide, by decide⟩

/-- C2, amended: only the Google Drive path saves through `_save_stream`,
which streams to a per-process temporary file and renames it over the
destination only after the full body is written — an interrupted save leaves
the destination exactly as it was (absent, or the previously cached complete
file) and removes the temporary file; the generic `download_file` branch
writes directly to the destination, so a transfer interrupted after `n`
chunks leaves exactly those bytes at the destination. -/
theorem save_stream_atomic_rename (dest0 : Option String) (chunks : List String)
    (n : Nat) :
    (_save_stream dest0 chunks (some n)).1 = dest0 ∧
    (_save_stream dest0 chunks (some n)).2 = none ∧
    (_save_stream dest0 chunks none).1
      = some (String.join (chunks.filter (fun c => c != ""))) ∧
    (download_file_plain { status := 200, chunks := chunks } none false (some n)).dest
      = some (String.join ((chunks.filter (fun c => c != "")).take n)) ∧
    tmpName "academic.sql" 4242 1700000000 = "academic.sql.part.4242.1700000000" := by
  refine ⟨rfl, rfl, rfl, ?_, rfl⟩
  simp [download_file_plain]

/-- C3, counterexample: a non-zero exit of the schema-snapshot dump raises
`CalledProcessError` outside any try/except in `main`: the run aborts after
that pair instead of continuing with the remaining dataset/engine pairs. -/
theorem schema_dump_failure_aborts_cex :
    processPairs false
      [{ resolveOutcome := .ok (some "advising.sql"), ensureOk := true,
         importOk := true, dumpOk := false },
       { resolveOutcome := .ok (some "atis.sql"), ensureOk := true,
         importOk := true, dumpOk := true }]
      = (1, .uncaught .calledProcessError) ∧
    RunResult.uncaught PyErr.calledProcessError ≠ RunResult.ok 0 := by
  exact ⟨rfl, by decide⟩

/-- C3, amended: a failing schema-snapshot dump raises `CalledProcessError`
which escapes `main` and aborts the run — the remaining pairs are not
processed; the dump (and hence its failure) is skipped entirely only when the
no-schema-dump flag is set, in which case the driver proceeds. -/
theorem schema_dump_failure_aborts (p : PairEnv) (rest : List PairEnv)
    (f : String)
    (h1 : p.resolveOutcome = .ok (some f)) (h2 : p.ensureOk = true)
    (h3 : p.importOk = true) (h4 : p.dumpOk = false) :
    processPairs false (p :: rest) = (1, .uncaught .calledProcessError) ∧
    processPairs true (p :: rest)
      = ((processPairs true rest).1 + 1, (processPairs true rest).2) := by
  constructor <;> simp [processPairs, h1, h2, h3, h4]

/-- C3, witness for the amended theorem at a concrete pair. -/
theorem schema_dump_failure_aborts_witness :
    processPairs false
      [{ resolveOutcome := .ok (some "advising.sql"), ensureOk := true,
         importOk := true, dumpOk := false }]
      = (1, .uncaught .calledProcessError) :=
  (schema_dump_failure_aborts
    { resolveOutcome := .ok (some "advising.sql"), ensureOk := true,
      importOk := true, dumpOk := false }
    [] "advising.sql" rfl rfl rfl rfl).1

/-- C4, counterexample: with `reset` set, `ensure_db` performs TWO separate
administrative subprocess invocations — one `docker exec` carrying only the
drop statement and a second carrying only the create statement — not a single
administrative command containing both. -/
theorem ensure_db_two_admin_commands_cex :
    ensure_db_cmds "mysql" "root123" "academic" true =
      [some ["docker", "exec", "-i", "text2sql-mysql", "mysql", "-uroot",
             "-proot123", "-e", "DROP DATABASE IF EXISTS `academic`;"],
       some ["docker", "exec", "-i", "text2sql-mysql", "mysql", "-uroot",
             "-proot123", "-e",
             "CREATE DATABASE IF NOT EXISTS `academic` CHARACTER SET utf8mb4 COLLATE utf8mb4_unicode_ci;"]] ∧
    (ensure_db_cmds "mysql" "root123" "academic" true).length ≠ 1 := by
  exact ⟨by decide, by decide⟩

/-- C4, amended: with `reset` set, `ensure_db` issues a drop-if-exists
statement and then a create-if-not-exists statement with the fixed utf8mb4 /
utf8mb4_unicode_ci character set and collation, each executed as its OWN
administrative command (its own `docker exec` client invocation) against the
running engine; without `reset` only the create command is issued. -/
theorem ensure_db_issues_separate_commands (pw db : String) :
    ensure_db_cmds "mysql" pw db true =
      [some ["docker", "exec", "-i", "text2sql-mysql", "mysql", "-uroot",
             "-p" ++ pw, "-e", dropStmt db],
       some ["docker", "exec", "-i", "text2sql-mysql", "mysql", "-uroot",
             "-p" ++ pw, "-e", createStmt db]] ∧
    ensure_db_cmds "mariadb" pw db true =
      [some ["docker", "exec", "-i", "text2sql-mariadb", "mariadb", "-uroot",
             "-p" ++ pw, "-e", dropStmt db],
       some ["docker", "exec", "-i", "text2sql-mariadb", "mariadb", "-uroot",
             "-p" ++ pw, "-e", createStmt db]] ∧
    ensure_db_stmts db false = [createStmt db] ∧
    strContains (createStmt "academic")
      "CHARACTER SET utf8mb4 COLLATE utf8mb4_unicode_ci" = true := by
  exact ⟨rfl, rfl, rfl, by decide⟩

/-- C5: when the first response is HTML, the confirmation token is sought in
order by (a) a `confirm=<token>` query parameter in the page's links, (b) a
hidden form field named `confirm`, (c) a session cookie prefixed
`download_warning` with a non-empty value; whenever all three yield nothing
the downloader raises the token-missing `RuntimeError` — whose message says
to make sure the file is shared — after exactly one outbound request. -/
theorem confirm_token_order_and_missing
    (env : GdRequest → GdResponse) (fid : String) (dest0 : Option String)
    (force : Bool) (r1 : GdResponse)
    (hc : (dest0.isSome && !force) = false)
    (hr1 : env { fileId := fid, confirm := none, cookies := [] } = r1)
    (hst : r1.status < 400)
    (hhtml : _looks_like_html r1.contentType = true) :
    (∀ h c t, scanConfirmParam h.toList = some t → gdriveToken h c = some t) ∧
    (∀ h c t, scanConfirmParam h.toList = none →
        scanHiddenConfirm h.toList = some t → gdriveToken h c = some t) ∧
    (∀ h c, scanConfirmParam h.toList = none → scanHiddenConfirm h.toList = none →
        gdriveToken h c = cookieWarningToken c) ∧
    (gdriveToken r1.body r1.cookies = none →
      download_google_drive env fid dest0 force =
        { requests := [{ fileId := fid, confirm := none, cookies := [] }],
          dest := dest0,
          result := .error (.runtimeError gdriveTokenMissingMsg) }) ∧
    strContains gdriveTokenMissingMsg "shared" = true := by
  have h400 : ¬ 400 ≤ r1.status := by omega
  refine ⟨?_, ?_, ?_, ?_, by decide⟩
  · intro h c t ha
    simp only [String.toList] at ha
    simp [gdriveToken, _extract_confirm_token_from_html, ha]
  · intro h c t ha hb
    simp only [String.toList] at ha hb
    simp [gdriveToken, _extract_confirm_token_from_html, ha, hb]
  · intro h c ha hb
    simp only [String.toList] at ha hb
    simp [gdriveToken, _extract_confirm_token_from_html, ha, hb]
  · intro htok
    simp [download_google_drive, hc, hr1, h400, hhtml, htok]

/-- C5, witness: a host answering a token-free HTML page with no
`download_warning` cookie makes the downloader fail with the token-missing
error after the single first request. -/
theorem confirm_token_order_and_missing_witness :
    download_google_drive envNoToken "FID" none false =
      { requests := [{ fileId := "FID", confirm := none, cookies := [] }],
        dest := none, result := .error (.runtimeError gdriveTokenMissingMsg) } :=
  (confirm_token_order_and_missing envNoToken "FID" none false
      (envNoToken { fileId := "FID", confirm := none, cookies := [] })
      (by decide) rfl (by decide) (by decide)).2.2.2.1 (by decide)

/-- C6: when the first response is HTML and a token is found, the second GET
is issued on the same session (cookies carried over) with the token as its
`confirm` parameter; if that second response is again HTML, the downloader
raises the permission-denied `RuntimeError` and the destination is left
exactly as it was — nothing is saved. -/
theorem confirm_handshake_second_request
    (env : GdRequest → GdResponse) (fid : String) (dest0 : Option String)
    (force : Bool) (r1 r2 : GdResponse) (tok : String)
    (hc : (dest0.isSome && !force) = false)
    (hr1 : env { fileId := fid, confirm := none, cookies := [] } = r1)
    (h1st : r1.status < 400)
    (h1html : _looks_like_html r1.contentType = true)
    (htok : gdriveToken r1.body r1.cookies = some tok)
    (hr2 : env { fileId := fid, confirm := some tok, cookies := r1.cookies } = r2)
    (h2st : r2.status < 400)
    (h2html : _looks_like_html r2.contentType = true) :
    download_google_drive env fid dest0 force =
      { requests := [{ fileId := fid, confirm := none, cookies := [] },
                     { fileId := fid, confirm := some tok, cookies := r1.cookies }],
        dest := dest0,
        result := .error (.runtimeError gdrivePermissionDeniedMsg) } := by
  have h1 : ¬ 400 ≤ r1.status := by omega
  have h2 : ¬ 400 ≤ r2.status := by omega
  simp [download_google_drive, hc, hr1, h1, h1html, htok, hr2, h2, h2html]

/-- C6, witness: the gating host's first response carries `confirm=ABC123` in
a link, so the second outbound request carries `confirm=ABC123` (with the
first response's cookies), and since the second response is HTML again the
downloader fails with the permission error, saving nothing. -/
theorem confirm_handshake_second_request_witness :
    download_google_drive gatedHost "FID" none false =
      { requests := [{ fileId := "FID", confirm := none, cookies := [] },
                     { fileId := "FID", confirm := some "ABC123",
                       cookies := [("download_warning_29", "zz")] }],
        dest := none,
        result := .error (.runtimeError gdrivePermissionDeniedMsg) } :=
  confirm_handshake_second_request gatedHost "FID" none false
    gatedFirstResponse gatedSecondResponse "ABC123"
    (by decide) rfl (by decide) (by decide) (by decide) rfl (by decide) (by decide)

/-- C7: whenever extraction is actually attempted (no valid marker, or
forced) on a corrupt archive, `extract_tgz` raises the archive-corrupt error
and the completion marker is NOT written, so a subsequent call re-extracts
from scratch; and across all inputs the marker ends up set only after a fully
successful extraction (or when a previous success short-circuits the call). -/
theorem extract_corrupt_no_marker (ex fs : List String) (st : ExtractState)
    (force : Bool)
    (h : (st.markerExists && !force) = false) :
    (extract_tgz (.corrupt ex) st force).2 = .error .tarReadError ∧
    (extract_tgz (.corrupt ex) st force).1.markerExists = false ∧
    extract_tgz (.good fs) (extract_tgz (.corrupt ex) st force).1 false
      = ({ markerExists := true, dirContents := fs }, .ok ()) ∧
    (∀ a s f, (extract_tgz a s f).1.markerExists = true →
      (s.markerExists = true ∧ f = false) ∨ ∃ l, a = TgzArchive.good l) := by
  refine ⟨by simp [extract_tgz, h], by simp [extract_tgz, h],
          by simp [extract_tgz, h], ?_⟩
  intro a s f hm
  by_cases hcond : (s.markerExists && !f) = true
  · simp at hcond
    exact Or.inl hcond
  · cases a with
    | good l => exact Or.inr ⟨l, rfl⟩
    | corrupt ex2 => simp [extract_tgz, hcond] at hm

/-- C7, witness: a corrupt archive extracted into a fresh directory raises
the archive-corrupt error and leaves the marker unset. -/
theorem extract_corrupt_no_marker_witness :
    (extract_tgz (.corrupt ["truncated.sql"])
        { markerExists := false, dirContents := [] } false).2
      = .error .tarReadError ∧
    (extract_tgz (.corrupt ["truncated.sql"])
        { markerExists := false, dirContents := [] } false).1.markerExists
      = false :=
  ⟨(extract_corrupt_no_marker ["truncated.sql"] ["MAS.database.sql"]
      { markerExists := false, dirContents := [] } false (by decide)).1,
   (extract_corrupt_no_marker ["truncated.sql"] ["MAS.database.sql"]
      { markerExists := false, dirContents := [] } false (by decide)).2.1⟩

/-- C8: for every url and destination, when the destination already exists
and `force` is false, `download_file` — and in particular the Google Drive
handler with its whole confirmation protocol — returns the existing
destination immediately, issuing zero network requests. -/
theorem fetch_cache_short_circuit (env : GdRequest → GdResponse)
    (resp : PlainResponse) (url fid c : String) (i : Option Nat) :
    download_file env resp url fid (some c) false i =
      { numRequests := 0, dest := some c, result := .ok .cached } ∧
    (download_google_drive env fid (some c) false).requests = [] ∧
    download_google_drive env fid (some c) false =
      { requests := [], dest := some c, result := .ok .cached } := by
  have hg : download_google_drive env fid (some c) false =
      { requests := [], dest := some c, result := .ok .cached } := by
    simp [download_google_drive]
  refine ⟨?_, by rw [hg], hg⟩
  by_cases hu : is_gdrive_url url
  · simp [download_file, hu, hg]
  · simp [download_file, hu, download_file_plain]

/-- C9: `find_member_path` returns the direct child `root/name` when present;
otherwise it filters the (fixed, stable) traversal order of the tree for
exact filename matches, raising the member-not-found error on zero matches
and returning the FIRST match — deterministically, being a pure function of
the unchanged tree — on several, as on the two-sibling example of the spec. -/
theorem locate_member_spec (tree : List String) (n : String) :
    (n ∈ tree → find_member_path tree n = .ok n) ∧
    (n ∉ tree → tree.filter (fun p => baseName p == n) = [] →
      find_member_path tree n = .error (.fileNotFoundError n)) ∧
    (∀ m ms, n ∉ tree → tree.filter (fun p => baseName p == n) = m :: ms →
      find_member_path tree n = .ok m) ∧
    find_member_path ["a/target.sql", "b/target.sql"] "target.sql"
      = .ok "a/target.sql" := by
  refine ⟨?_, ?_, ?_, by decide⟩
  · intro hmem; simp [find_member_path, hmem]
  · intro hmem hfil; simp [find_member_path, hmem, hfil]
  · intro m ms hmem hfil; simp [find_member_path, hmem, hfil]

/-- C9, witness: the ambiguous two-sibling tree resolves to the first match
in traversal order, and an absent member is a member-not-found error. -/
theorem locate_member_spec_witness :
    find_member_path ["a/target.sql", "b/target.sql"] "target.sql"
      = .ok "a/target.sql" ∧
    find_member_path ["a/x.sql"] "missing.sql"
      = .error (.fileNotFoundError "missing.sql") :=
  ⟨(locate_member_spec ["a/target.sql", "b/target.sql"] "target.sql").2.2.1
      "a/target.sql" ["b/target.sql"] (by decide) (by decide),
   (locate_member_spec ["a/x.sql"] "missing.sql").2.1 (by decide) (by decide)⟩

/-- C10: a bundle-type source whose key is absent from the bundle's
`sql_members` makes the unguarded subscript of `resolve_sql_asset` raise a
bare `KeyError` — a different error kind from the member-not-found error —
and under the configuration invariant, which the shipped
`DATASET_SQL_SOURCES` / `SQL_BUNDLES` satisfy, this lookup branch never
fails. -/
theorem bundle_member_lookup_keyerror (key : String)
    (h : dictFind sqlizer_sql_members key = none) :
    bundle_sql_member_lookup "sqlizer" key = .error (.keyError key) ∧
    (∀ m, PyErr.keyError key ≠ PyErr.fileNotFoundError m) ∧
    allBundleKeysPresent = true := by
  refine ⟨?_, fun m hcontra => PyErr.noConfusion hcontra, by decide⟩
  have hstep : bundle_sql_member_lookup "sqlizer" key
      = lookupKey sqlizer_sql_members key := rfl
  rw [hstep]
  simp [lookupKey, h]

/-- C10, witness: `advising` is not a key of the sqlizer bundle's
`sql_members`, and looking it up raises the bare `KeyError`. -/
theorem bundle_member_lookup_keyerror_witness :
    bundle_sql_member_lookup "sqlizer" "advising"
      = .error (.keyError "advising") :=
  (bundle_member_lookup_keyerror "advising" (by decide)).1

end ExtractSchemas
